import Mathlib

/-
Verification of the procedural gesture/animation composition engine
(`GestureSequence` and the `Gesture` family) of the logitech-blender-stylus
repository.

The Python sources under src/src/gestures are shallowly embedded here:
  - `utils/axis.py`               -> `Axis`, `Axis.index`
  - `gestures/gesture.py`         -> `Gesture.init` (constructor checks)
  - `gestures/translation_gesture.py`      -> `TranslationGesture`
  - `gestures/rotation_gesture.py`         -> `RotationGesture`
  - `gestures/rotation_sine_gesture.py`    -> `RotationSineGesture`
  - `gestures/translation_sine_gesture.py` -> `TranslationSineGesture`
  - `gestures/rotation_wave_gesture.py`    -> `RotationWaveGesture`
  - `gestures/gesture_sequence.py`         -> `GestureSequence.*`

Python floats are modelled as real numbers, frames as integers.  Blender
bones are modelled by their two mutable vector properties (`location`,
`rotation_euler`); the per-frame displacement dictionary becomes a function
from bones to a pair of delta vectors.
-/

namespace Gestures

/-- The three animated joints of the armature rig. -/
inductive Bone
  | arm
  | forearm
  | hand
deriving DecidableEq, Repr

/-- A 3-component vector of reals (mathutils Vector / Euler). -/
abbrev Vec3 : Type := Fin 3 → ℝ

/-- The zero vector, `Vector((0, 0, 0))`. -/
def zeroVec : Vec3 := fun _ => 0

/-- The `Axis` enum of `utils/axis.py`. -/
inductive Axis
  | X_AXIS
  | Y_AXIS
  | Z_AXIS
deriving DecidableEq, Repr

/-- `Axis.index` of `utils/axis.py`: the component index of each axis. -/
def Axis.index : Axis → Fin 3
  | .X_AXIS => 0
  | .Y_AXIS => 1
  | .Z_AXIS => 2

/-- The pair of delta vectors kept per bone in the displacement dictionary:
`{"location": Vector((0,0,0)), "rotation_euler": Euler((0,0,0))}`. -/
structure BoneData where
  location : Vec3
  rotation_euler : Vec3

theorem BoneData.ext_iff2 (a b : BoneData) :
    a = b ↔ a.location = b.location ∧ a.rotation_euler = b.rotation_euler := by
  constructor
  · intro h; subst h; exact ⟨rfl, rfl⟩
  · intro ⟨h1, h2⟩; cases a; cases b; simp_all

/-- The displacement dictionary built fresh every frame by
`GestureSequence._get_default_displacement_data` and threaded through the
per-frame pipeline. -/
abbrev DisplacementData : Type := Bone → BoneData

/-- `displacement_data[bone]["rotation_euler"][axis_index] += value`. -/
def addToRotation (d : DisplacementData) (b : Bone) (i : Fin 3) (v : ℝ) : DisplacementData :=
  Function.update d b
    { d b with rotation_euler := Function.update (d b).rotation_euler i ((d b).rotation_euler i + v) }

/-- `displacement_data[bone]["location"][axis_index] += value`. -/
def addToLocation (d : DisplacementData) (b : Bone) (i : Fin 3) (v : ℝ) : DisplacementData :=
  Function.update d b
    { d b with location := Function.update (d b).location i ((d b).location i + v) }

/-- `displacement_data[bone]["location"] += vector` (componentwise vector add). -/
def addVecToLocation (d : DisplacementData) (b : Bone) (v : Vec3) : DisplacementData :=
  Function.update d b { d b with location := fun i => (d b).location i + v i }

/-- Componentwise `.x += / .y += / .z +=` on the rotation entry, as done by
`RotationGesture.apply`. -/
def addVecToRotation (d : DisplacementData) (b : Bone) (v : Vec3) : DisplacementData :=
  Function.update d b { d b with rotation_euler := fun i => (d b).rotation_euler i + v i }

/-! ## Linear ramp gestures -/

/-- `TranslationGesture` (translation_gesture.py).  `initial_location` is the
arm location copied at construction time (`arm.location.copy()`). -/
structure TranslationGesture where
  start_frame : ℤ
  end_frame : ℤ
  vector : Vec3
  relative : Bool
  initial_location : Vec3

/-- `self.duration = self.end_frame - self.start_frame`. -/
def TranslationGesture.duration (g : TranslationGesture) : ℤ :=
  g.end_frame - g.start_frame

/-- The per-frame translation computed inside `TranslationGesture.apply`:
the vector (minus the initial location in absolute mode) divided by the
duration. -/
noncomputable def TranslationGesture.translation (g : TranslationGesture) : Vec3 := fun i =>
  (if g.relative then g.vector i else g.vector i - g.initial_location i) / (g.duration : ℝ)

/-- `TranslationGesture.apply`: adds the per-frame translation to the arm
location entry of the displacement data. -/
noncomputable def TranslationGesture.apply (g : TranslationGesture) (d : DisplacementData)
    (current_frame : ℤ) : DisplacementData :=
  addVecToLocation d Bone.arm g.translation

/-- `RotationGesture` (rotation_gesture.py).  `initial_rotation` is the
rotation of the targeted bone copied at construction time. -/
structure RotationGesture where
  start_frame : ℤ
  end_frame : ℤ
  bone : Bone
  euler : Vec3
  relative : Bool
  initial_rotation : Vec3

/-- `self.duration = self.end_frame - self.start_frame`. -/
def RotationGesture.duration (g : RotationGesture) : ℤ :=
  g.end_frame - g.start_frame

/-- The per-frame euler increment computed inside `RotationGesture.apply`. -/
noncomputable def RotationGesture.eulerIncrement (g : RotationGesture) : Vec3 := fun i =>
  (if g.relative then g.euler i else g.euler i - g.initial_rotation i) / (g.duration : ℝ)

/-- `RotationGesture.apply`: adds the per-frame euler increment to the
rotation entry of the targeted bone. -/
noncomputable def RotationGesture.apply (g : RotationGesture) (d : DisplacementData)
    (current_frame : ℤ) : DisplacementData :=
  addVecToRotation d g.bone g.eulerIncrement

/-! ## Sinusoidal gestures -/

/-- `RotationSineGesture` (rotation_sine_gesture.py). -/
structure RotationSineGesture where
  start_frame : ℤ
  end_frame : ℤ
  bone : Bone
  frame_rate : ℤ
  axis : Axis
  phase_shift : ℝ
  wave_period : ℝ
  wave_amplitude : ℝ

/-- `RotationSineGesture.__get_bone_rotation_at_frame`:
`sin((frame - 1) / frame_rate * 2 * pi * wave_period + phase_shift) * wave_amplitude`. -/
noncomputable def RotationSineGesture.getBoneRotationAtFrame (g : RotationSineGesture)
    (frame : ℤ) : ℝ :=
  Real.sin (((frame : ℝ) - 1) / (g.frame_rate : ℝ) * 2 * Real.pi * g.wave_period
      + g.phase_shift) * g.wave_amplitude

/-- `RotationSineGesture.apply`: adds the discrete derivative of the waveform
to the chosen axis of the targeted bone's rotation entry. -/
noncomputable def RotationSineGesture.apply (g : RotationSineGesture)
    (d : DisplacementData) (current_frame : ℤ) : DisplacementData :=
  addToRotation d g.bone g.axis.index
    (g.getBoneRotationAtFrame current_frame - g.getBoneRotationAtFrame (current_frame - 1))

/-- `TranslationSineGesture` (translation_sine_gesture.py). -/
structure TranslationSineGesture where
  start_frame : ℤ
  end_frame : ℤ
  frame_rate : ℤ
  axis : Axis
  phase_shift : ℝ
  wave_period : ℝ
  wave_amplitude : ℝ

/-- `TranslationSineGesture.__get_arm_location_at_frame`. -/
noncomputable def TranslationSineGesture.getArmLocationAtFrame (g : TranslationSineGesture)
    (frame : ℤ) : ℝ :=
  Real.sin (((frame : ℝ) - 1) / (g.frame_rate : ℝ) * 2 * Real.pi * g.wave_period
      + g.phase_shift) * g.wave_amplitude

/-- `TranslationSineGesture.apply`: adds the discrete derivative of the
waveform to the chosen axis of the arm's location entry. -/
noncomputable def TranslationSineGesture.apply (g : TranslationSineGesture)
    (d : DisplacementData) (current_frame : ℤ) : DisplacementData :=
  addToLocation d Bone.arm g.axis.index
    (g.getArmLocationAtFrame current_frame - g.getArmLocationAtFrame (current_frame - 1))

/-! ## Phase-cascaded wave gesture -/

/-- `RotationWaveGesture` (rotation_wave_gesture.py). -/
structure RotationWaveGesture where
  start_frame : ℤ
  end_frame : ℤ
  frame_rate : ℤ
  axis : Axis
  wave_period : ℝ
  wave_amplitude : ℝ
  arm_phase_shift : ℝ
  forearm_phase_shift : ℝ
  forearm_amplitude_factor : ℝ
  hand_phase_shift : ℝ
  hand_amplitude_factor : ℝ

/-- `RotationWaveGesture.__get_arm_rotation_at_frame`. -/
noncomputable def RotationWaveGesture.getArmRotationAtFrame (g : RotationWaveGesture)
    (frame : ℤ) : ℝ :=
  Real.sin (((frame : ℝ) - 1) / (g.frame_rate : ℝ) * 2 * Real.pi * g.wave_period
      + g.arm_phase_shift) * g.wave_amplitude

/-- `RotationWaveGesture.__get_forearm_rotation_at_frame`: the phase shift is
the cumulative arm + forearm shift, the amplitude is attenuated by the
forearm factor. -/
noncomputable def RotationWaveGesture.getForearmRotationAtFrame (g : RotationWaveGesture)
    (frame : ℤ) : ℝ :=
  Real.sin (((frame : ℝ) - 1) / (g.frame_rate : ℝ) * 2 * Real.pi * g.wave_period
      + (g.arm_phase_shift + g.forearm_phase_shift))
    * (g.wave_amplitude * g.forearm_amplitude_factor)

/-- `RotationWaveGesture.__get_hand_rotation_at_frame`. -/
noncomputable def RotationWaveGesture.getHandRotationAtFrame (g : RotationWaveGesture)
    (frame : ℤ) : ℝ :=
  Real.sin (((frame : ℝ) - 1) / (g.frame_rate : ℝ) * 2 * Real.pi * g.wave_period
      + (g.arm_phase_shift + g.forearm_phase_shift + g.hand_phase_shift))
    * (g.wave_amplitude * g.forearm_amplitude_factor * g.hand_amplitude_factor)

/-- `RotationWaveGesture.__bone_apply`. -/
noncomputable def RotationWaveGesture.boneApply (g : RotationWaveGesture)
    (d : DisplacementData) (b : Bone) (rotation : ℝ) : DisplacementData :=
  addToRotation d b g.axis.index rotation

/-- `RotationWaveGesture.apply`: per-bone discrete derivatives applied to the
arm, the forearm, and the hand, in that order. -/
noncomputable def RotationWaveGesture.apply (g : RotationWaveGesture)
    (d : DisplacementData) (current_frame : ℤ) : DisplacementData :=
  let d1 := g.boneApply d Bone.arm
    (g.getArmRotationAtFrame current_frame - g.getArmRotationAtFrame (current_frame - 1))
  let d2 := g.boneApply d1 Bone.forearm
    (g.getForearmRotationAtFrame current_frame
      - g.getForearmRotationAtFrame (current_frame - 1))
  g.boneApply d2 Bone.hand
    (g.getHandRotationAtFrame current_frame - g.getHandRotationAtFrame (current_frame - 1))

/-- A constructed gesture object: one of the five concrete `Gesture`
subclasses that participate in a `GestureSequence`. -/
inductive GestureInst
  | translation (g : TranslationGesture)
  | rotation (g : RotationGesture)
  | rotationSine (g : RotationSineGesture)
  | translationSine (g : TranslationSineGesture)
  | rotationWave (g : RotationWaveGesture)

/-- Dynamic dispatch of `gesture_object.apply(displacement_data, current_frame)`. -/
noncomputable def GestureInst.apply : GestureInst → DisplacementData → ℤ → DisplacementData
  | .translation g, d, f => g.apply d f
  | .rotation g, d, f => g.apply d f
  | .rotationSine g, d, f => g.apply d f
  | .translationSine g, d, f => g.apply d f
  | .rotationWave g, d, f => g.apply d f

/-! ## The per-frame pipeline of `GestureSequence._get_displacement_data` -/

namespace GestureSequence

/-- `GestureSequence._get_default_displacement_data`: every bone maps to a
pair of zero vectors. -/
def defaultDisplacementData : DisplacementData :=
  fun _ => { location := zeroVec, rotation_euler := zeroVec }

/-- The aggregation loop `for gesture_object, _ in self.current_gestures:
displacement_data = gesture_object.apply(displacement_data, current_frame)`. -/
noncomputable def applyGestures (gs : List GestureInst) (d : DisplacementData)
    (current_frame : ℤ) : DisplacementData :=
  gs.foldl (fun acc g => g.apply acc current_frame) d

/-- The raw aggregated per-frame contribution: all current gestures applied
to the fresh zero-initialized displacement data. -/
noncomputable def aggregateDisplacement (gs : List GestureInst) (current_frame : ℤ) :
    DisplacementData :=
  applyGestures gs defaultDisplacementData current_frame

/-- The momentum-blending stage: for every bone and every component,
`previous * momentum_weight + current * (1 - momentum_weight)`. -/
def applyMomentum (momentum_weight : ℝ) (previous d : DisplacementData) : DisplacementData :=
  fun b =>
    { location := fun i =>
        (previous b).location i * momentum_weight + (d b).location i * (1 - momentum_weight)
      rotation_euler := fun i =>
        (previous b).rotation_euler i * momentum_weight
          + (d b).rotation_euler i * (1 - momentum_weight) }

/-- One component of the acceleration-limiting stage: if the difference with
the previous frame exceeds the limit, clip to
`previous + sign(difference) * limit`. -/
noncomputable def clipDisplacement (acceleration_limit previous_displacement
    current_displacement : ℝ) : ℝ :=
  let displacement_difference := current_displacement - previous_displacement
  if |displacement_difference| > acceleration_limit then
    previous_displacement + Real.sign displacement_difference * acceleration_limit
  else current_displacement

/-- The acceleration-limiting stage of `_get_displacement_data`: location
components use the translation limit, rotation components the rotation
limit. -/
noncomputable def limitAcceleration (translation_acceleration_limit
    rotation_acceleration_limit : ℝ) (previous d : DisplacementData) : DisplacementData :=
  fun b =>
    { location := fun i =>
        clipDisplacement translation_acceleration_limit
          ((previous b).location i) ((d b).location i)
      rotation_euler := fun i =>
        clipDisplacement rotation_acceleration_limit
          ((previous b).rotation_euler i) ((d b).rotation_euler i) }

/-- The configuration held by a `GestureSequence` (constructor arguments and
their defaults). -/
structure SequenceConfig where
  translation_acceleration_limit : ℝ
  rotation_acceleration_limit : ℝ
  location_range : Vec3 × Vec3
  arm_rotation_range : Vec3 × Vec3
  forearm_rotation_range : Vec3 × Vec3
  hand_rotation_range : Vec3 × Vec3
  momentum_weight : ℝ

/-- `GestureSequence._get_displacement_data`: aggregate the current gestures
on fresh zero data, blend with the previous frame's data by the momentum
weight, then limit the acceleration against the previous frame's data. -/
noncomputable def getDisplacementData (cfg : SequenceConfig) (gs : List GestureInst)
    (current_frame : ℤ) (previous : DisplacementData) : DisplacementData :=
  limitAcceleration cfg.translation_acceleration_limit cfg.rotation_acceleration_limit
    previous (applyMomentum cfg.momentum_weight previous
      (aggregateDisplacement gs current_frame))

/-! ## Range limiting (`_get_limited_value`) and keyframe insertion -/

/-- The easing function `_slow_factor` with its default `k = 10`:
`-2 / (1 + exp(-10 * abs(x))) + 2`. -/
noncomputable def slowFactor (x : ℝ) : ℝ :=
  -2 / (1 + Real.exp (-(10 : ℝ) * |x|)) + 2

/-- `GestureSequence._get_limited_value`: scale the displacement by the
easing factor only when the next value is out of range and moving away from
the current value. -/
noncomputable def getLimitedValue (current displacement_value minimum maximum : ℝ) : ℝ :=
  let next_value := current + displacement_value
  if next_value < minimum ∧ next_value < current then
    displacement_value * slowFactor (minimum - next_value)
  else if next_value > maximum ∧ next_value > current then
    displacement_value * slowFactor (next_value - maximum)
  else displacement_value

/-- The rotation range selected for a bone by the `match bone` in
`_insert_rotation_keyframe`. -/
def rotationRangeOf (cfg : SequenceConfig) : Bone → Vec3 × Vec3
  | .arm => cfg.arm_rotation_range
  | .forearm => cfg.forearm_rotation_range
  | .hand => cfg.hand_rotation_range

section
open Classical

/-- `GestureSequence._insert_location_keyframe`: when the bone's location
delta is nonzero, each component is range-limited in place in the
displacement data and then added to the bone's location.  Returns the
updated bone states and the (mutated) displacement data. -/
noncomputable def insertLocationKeyframe (cfg : SequenceConfig) (bones : Bone → BoneData)
    (bone : Bone) (d : DisplacementData) : (Bone → BoneData) × DisplacementData :=
  if h : (d bone).location = zeroVec then (bones, d)
  else
    let limited : Vec3 := fun i =>
      getLimitedValue ((bones bone).location i) ((d bone).location i)
        (cfg.location_range.1 i) (cfg.location_range.2 i)
    let d2 := Function.update d bone { d bone with location := limited }
    let bones2 := Function.update bones bone
      { bones bone with location := fun i => (bones bone).location i + limited i }
    (bones2, d2)

/-- `GestureSequence._insert_rotation_keyframe`: same shape as the location
case, with the bone's own rotation range. -/
noncomputable def insertRotationKeyframe (cfg : SequenceConfig) (bones : Bone → BoneData)
    (bone : Bone) (d : DisplacementData) : (Bone → BoneData) × DisplacementData :=
  if h : (d bone).rotation_euler = zeroVec then (bones, d)
  else
    let limited : Vec3 := fun i =>
      getLimitedValue ((bones bone).rotation_euler i) ((d bone).rotation_euler i)
        ((rotationRangeOf cfg bone).1 i) ((rotationRangeOf cfg bone).2 i)
    let d2 := Function.update d bone { d bone with rotation_euler := limited }
    let bones2 := Function.update bones bone
      { bones bone with rotation_euler := fun i => (bones bone).rotation_euler i + limited i }
    (bones2, d2)

end

/-- `GestureSequence._insert_keyframe`: location first, then rotation. -/
noncomputable def insertKeyframe (cfg : SequenceConfig) (bones : Bone → BoneData)
    (bone : Bone) (d : DisplacementData) : (Bone → BoneData) × DisplacementData :=
  let r := insertLocationKeyframe cfg bones bone d
  insertRotationKeyframe cfg r.1 bone r.2

end GestureSequence

/-! ## The gesture timeline of `GestureSequence` -/

/-- The timeline-relevant keys of a gesture's argument dictionary as read by
`_update_current_gestures`, `_update_remaining_gestures` and
`_get_end_frame`: `start_frame` is always present; `end_frame` is present
for the five gesture classes and absent for single-frame event gestures. -/
structure GestureArgs where
  start_frame : ℤ
  end_frame : Option ℤ
deriving DecidableEq, Repr

namespace GestureSequence

/-- The retirement condition of `_update_current_gestures`:
`("end_frame" in args and current_frame == args["end_frame"]) or
("end_frame" not in args and current_frame == args["start_frame"] + 1)`. -/
def retiresAt (args : GestureArgs) (current_frame : ℤ) : Bool :=
  (decide args.end_frame.isSome && decide (args.end_frame = some current_frame))
    || (decide args.end_frame.isNone && decide (current_frame = args.start_frame + 1))

/-- `GestureSequence._update_current_gestures`: keep exactly the current
gestures whose retirement condition does not hold at this frame. -/
def updateCurrentGestures (current : List (GestureInst × GestureArgs))
    (current_frame : ℤ) : List (GestureInst × GestureArgs) :=
  current.filter fun cg => !retiresAt cg.2 current_frame

end GestureSequence

/-- A declarative gesture timeline entry, the `(gesture_type, gesture_args)`
pair held in `self.gestures` / `self.remaining_gestures`.  Only the five
concrete `Gesture` classes occur in the repository's sequences (the `Event`
subclasses are never passed to a `GestureSequence`). -/
inductive GestureDecl
  | translation (start_frame end_frame : ℤ) (vector : Vec3) (relative : Bool)
  | rotation (start_frame end_frame : ℤ) (bone : Bone) (euler : Vec3) (relative : Bool)
  | rotationSine (start_frame end_frame : ℤ) (bone : Bone) (frame_rate : ℤ) (axis : Axis)
      (phase_shift wave_period wave_amplitude : ℝ)
  | translationSine (start_frame end_frame : ℤ) (frame_rate : ℤ) (axis : Axis)
      (phase_shift wave_period wave_amplitude : ℝ)
  | rotationWave (start_frame end_frame : ℤ) (frame_rate : ℤ) (axis : Axis)
      (wave_period wave_amplitude arm_phase_shift forearm_phase_shift
        forearm_amplitude_factor hand_phase_shift hand_amplitude_factor : ℝ)

/-- The `start_frame` entry of the declaration's argument dictionary. -/
def GestureDecl.startFrame : GestureDecl → ℤ
  | .translation s _ _ _ => s
  | .rotation s _ _ _ _ => s
  | .rotationSine s _ _ _ _ _ _ _ => s
  | .translationSine s _ _ _ _ _ _ => s
  | .rotationWave s _ _ _ _ _ _ _ _ _ _ => s

/-- The timeline keys of the declaration's argument dictionary.  All five
gesture classes declare an `end_frame`. -/
def GestureDecl.args : GestureDecl → GestureArgs
  | .translation s e _ _ => ⟨s, some e⟩
  | .rotation s e _ _ _ => ⟨s, some e⟩
  | .rotationSine s e _ _ _ _ _ _ => ⟨s, some e⟩
  | .translationSine s e _ _ _ _ _ => ⟨s, some e⟩
  | .rotationWave s e _ _ _ _ _ _ _ _ _ => ⟨s, some e⟩

/-- Constructing the gesture object when its start frame is reached
(`gesture_type(scene=..., arm=..., ..., **gesture_args)` in
`_update_remaining_gestures`).  The linear ramp constructors capture the
current value of the targeted joint (`arm.location.copy()` /
`self.bone.rotation_euler.copy()`). -/
def GestureDecl.construct (decl : GestureDecl) (bones : Bone → BoneData) : GestureInst :=
  match decl with
  | .translation s e v rel => .translation ⟨s, e, v, rel, (bones Bone.arm).location⟩
  | .rotation s e b eu rel => .rotation ⟨s, e, b, eu, rel, (bones b).rotation_euler⟩
  | .rotationSine s e b fr ax ps wp wa => .rotationSine ⟨s, e, b, fr, ax, ps, wp, wa⟩
  | .translationSine s e fr ax ps wp wa => .translationSine ⟨s, e, fr, ax, ps, wp, wa⟩
  | .rotationWave s e fr ax wp wa aps fps faf hps haf =>
      .rotationWave ⟨s, e, fr, ax, wp, wa, aps, fps, faf, hps, haf⟩

namespace GestureSequence

/-- `GestureSequence._get_end_frame`: the maximum over all declared gestures
of `end_frame` when present, else `start_frame + 1`, starting from 0. -/
def getEndFrame (gestures : List GestureArgs) : ℤ :=
  gestures.foldl (fun acc args => max acc (args.end_frame.getD (args.start_frame + 1))) 0

/-- The mutable state of a running `GestureSequence`: the remaining and
current gesture lists, the bone states, and the previous frame's
displacement data. -/
structure SeqState where
  remaining : List GestureDecl
  current : List (GestureInst × GestureArgs)
  bones : Bone → BoneData
  previous_displacement_data : DisplacementData

/-- One iteration of the frame loop in `GestureSequence.apply`: retire ended
gestures, promote starting gestures (constructed against the current bone
state), compute the displacement data, then range-limit it in place while
adding it to each bone (arm, forearm, hand in order) and store it as the
previous displacement data. -/
noncomputable def step (cfg : SequenceConfig) (s : SeqState) (current_frame : ℤ) : SeqState :=
  let current1 := updateCurrentGestures s.current current_frame
  let current2 := current1 ++
    (s.remaining.filter fun decl => decide (decl.startFrame = current_frame)).map
      (fun decl => (decl.construct s.bones, decl.args))
  let remaining2 := s.remaining.filter fun decl => !decide (decl.startFrame = current_frame)
  let d := getDisplacementData cfg (current2.map Prod.fst) current_frame
    s.previous_displacement_data
  let r1 := insertKeyframe cfg s.bones Bone.arm d
  let r2 := insertKeyframe cfg r1.1 Bone.forearm r1.2
  let r3 := insertKeyframe cfg r2.1 Bone.hand r2.2
  { remaining := remaining2
    current := current2
    bones := r3.1
    previous_displacement_data := r3.2 }

/-- The gesture list during frame `current_frame`'s displacement
computation: the current list after both timeline updates of that frame. -/
def currentDuring (s : SeqState) (current_frame : ℤ) :
    List (GestureInst × GestureArgs) :=
  updateCurrentGestures s.current current_frame ++
    (s.remaining.filter fun decl => decide (decl.startFrame = current_frame)).map
      (fun decl => (decl.construct s.bones, decl.args))

/-- Iterating `step` from a given frame for a given number of frames. -/
noncomputable def runFrom (cfg : SequenceConfig) (s : SeqState) (current_frame : ℤ) :
    ℕ → SeqState
  | 0 => s
  | n + 1 => runFrom cfg (step cfg s current_frame) (current_frame + 1) n

/-- `GestureSequence.apply`: starting from all gestures remaining and zero
previous displacement data, run the frame loop `for current_frame in
range(1, end_frame)`. -/
noncomputable def applyModel (cfg : SequenceConfig) (decls : List GestureDecl)
    (bones0 : Bone → BoneData) : SeqState :=
  runFrom cfg ⟨decls, [], bones0, defaultDisplacementData⟩ 1
    (getEndFrame (decls.map GestureDecl.args) - 1).toNat

end GestureSequence

/-! ## Constructor checks -/

/-- The validation performed by `Gesture.__init__` on the frame window
(gesture.py): negative frames and `start_frame >= end_frame` raise a
`ValueError`. -/
def Gesture.init (start_frame end_frame : ℤ) : Except String Unit :=
  if start_frame < 0 ∨ end_frame < 0 then
    .error "The start frame and end frame must be greater than or equal to 0."
  else if start_frame ≥ end_frame then
    .error "The start frame must be less than the end frame."
  else .ok ()

/-- The dynamically-typed `axis` argument of the sine/wave gesture
constructors: either one of the three `Axis` enum members, or any other
runtime value (for example a plain string). -/
inductive AxisArg
  | member (a : Axis)
  | other (s : String)
deriving DecidableEq, Repr

/-- The dictionary lookup inside `Axis.index`: defined on the three enum
members, a `KeyError` (modelled as `none`) on anything else. -/
def AxisArg.indexLookup : AxisArg → Option (Fin 3)
  | .member a => some a.index
  | .other _ => none

/-- The validation performed by `RotationSineGesture.__init__`: a
non-positive wave period and a negative wave amplitude raise a
`ValueError`, then `Gesture.__init__` checks the frame window.  The `axis`
argument is accepted without any check. -/
noncomputable def RotationSineGesture.init (start_frame end_frame : ℤ) (axis : AxisArg)
    (wave_period wave_amplitude : ℝ) : Except String Unit :=
  if wave_period ≤ 0 then
    .error "The wave period must be greater than 0."
  else if wave_amplitude < 0 then
    .error "The wave amplitude must be greater than or equal to 0."
  else Gesture.init start_frame end_frame

/-! ## Basic lemmas about the displacement updates -/

@[ext] theorem BoneData.ext2 (a b : BoneData) (h1 : a.location = b.location)
    (h2 : a.rotation_euler = b.rotation_euler) : a = b := by
  cases a; cases b; simp_all

lemma addToRotation_rot_same (d : DisplacementData) (b : Bone) (i : Fin 3) (v : ℝ) :
    ((addToRotation d b i v) b).rotation_euler i = (d b).rotation_euler i + v := by
  simp [addToRotation]

lemma addToRotation_other_bone (d : DisplacementData) (b : Bone) (i : Fin 3) (v : ℝ)
    (b' : Bone) (h : b' ≠ b) : (addToRotation d b i v) b' = d b' := by
  simp [addToRotation, Function.update_noteq h]

lemma addToRotation_location (d : DisplacementData) (b : Bone) (i : Fin 3) (v : ℝ)
    (b' : Bone) : ((addToRotation d b i v) b').location = (d b').location := by
  rcases eq_or_ne b' b with rfl | h
  · simp [addToRotation]
  · simp [addToRotation, Function.update_noteq h]

lemma addToLocation_loc_same (d : DisplacementData) (b : Bone) (i : Fin 3) (v : ℝ) :
    ((addToLocation d b i v) b).location i = (d b).location i + v := by
  simp [addToLocation]

lemma addToLocation_other_bone (d : DisplacementData) (b : Bone) (i : Fin 3) (v : ℝ)
    (b' : Bone) (h : b' ≠ b) : (addToLocation d b i v) b' = d b' := by
  simp [addToLocation, Function.update_noteq h]

lemma addVecToLocation_loc_same (d : DisplacementData) (b : Bone) (v : Vec3) (i : Fin 3) :
    ((addVecToLocation d b v) b).location i = (d b).location i + v i := by
  simp [addVecToLocation]

lemma addVecToLocation_other_bone (d : DisplacementData) (b : Bone) (v : Vec3)
    (b' : Bone) (h : b' ≠ b) : (addVecToLocation d b v) b' = d b' := by
  simp [addVecToLocation, Function.update_noteq h]

lemma addVecToRotation_location (d : DisplacementData) (b : Bone) (v : Vec3)
    (b' : Bone) : ((addVecToRotation d b v) b').location = (d b').location := by
  rcases eq_or_ne b' b with rfl | h
  · simp [addVecToRotation]
  · simp [addVecToRotation, Function.update_noteq h]

lemma addVecToRotation_rot_same (d : DisplacementData) (b : Bone) (v : Vec3) (i : Fin 3) :
    ((addVecToRotation d b v) b).rotation_euler i = (d b).rotation_euler i + v i := by
  simp [addVecToRotation]

/-- Componentwise sum of two displacement dictionaries. -/
def addDisplacement (d e : DisplacementData) : DisplacementData := fun b =>
  { location := fun i => (d b).location i + (e b).location i
    rotation_euler := fun i => (d b).rotation_euler i + (e b).rotation_euler i }

lemma addDisplacement_default (d : DisplacementData) :
    addDisplacement d GestureSequence.defaultDisplacementData = d := by
  funext b
  ext i
  · simp [addDisplacement, GestureSequence.defaultDisplacementData, zeroVec]
  · simp [addDisplacement, GestureSequence.defaultDisplacementData, zeroVec]

lemma addDisplacement_right_comm (a x y : DisplacementData) :
    addDisplacement (addDisplacement a x) y = addDisplacement (addDisplacement a y) x := by
  funext b
  ext i
  · simp [addDisplacement]; ring
  · simp [addDisplacement]; ring

lemma addToRotation_addDisplacement (d e : DisplacementData) (b : Bone) (i : Fin 3) (v : ℝ) :
    addToRotation (addDisplacement d e) b i v = addDisplacement d (addToRotation e b i v) := by
  funext b'
  rcases eq_or_ne b' b with rfl | h
  · ext i'
    · simp [addToRotation, addDisplacement]
    · rcases eq_or_ne i' i with rfl | hi
      · simp [addToRotation, addDisplacement]; ring
      · simp [addToRotation, addDisplacement, Function.update_noteq hi]
  · simp [addToRotation, addDisplacement, Function.update_noteq h]

lemma addToLocation_addDisplacement (d e : DisplacementData) (b : Bone) (i : Fin 3) (v : ℝ) :
    addToLocation (addDisplacement d e) b i v = addDisplacement d (addToLocation e b i v) := by
  funext b'
  rcases eq_or_ne b' b with rfl | h
  · ext i'
    · rcases eq_or_ne i' i with rfl | hi
      · simp [addToLocation, addDisplacement]; ring
      · simp [addToLocation, addDisplacement, Function.update_noteq hi]
    · simp [addToLocation, addDisplacement]
  · simp [addToLocation, addDisplacement, Function.update_noteq h]

lemma addVecToLocation_addDisplacement (d e : DisplacementData) (b : Bone) (v : Vec3) :
    addVecToLocation (addDisplacement d e) b v = addDisplacement d (addVecToLocation e b v) := by
  funext b'
  rcases eq_or_ne b' b with rfl | h
  · ext i'
    · simp [addVecToLocation, addDisplacement]; ring
    · simp [addVecToLocation, addDisplacement]
  · simp [addVecToLocation, addDisplacement, Function.update_noteq h]

lemma addVecToRotation_addDisplacement (d e : DisplacementData) (b : Bone) (v : Vec3) :
    addVecToRotation (addDisplacement d e) b v = addDisplacement d (addVecToRotation e b v) := by
  funext b'
  rcases eq_or_ne b' b with rfl | h
  · ext i'
    · simp [addVecToRotation, addDisplacement]
    · simp [addVecToRotation, addDisplacement]; ring
  · simp [addVecToRotation, addDisplacement, Function.update_noteq h]

/-- Every gesture's `apply` only adds a contribution that does not depend on
the displacement data it receives: `apply` on `d` is `d` plus `apply` on the
zero data. -/
lemma GestureInst.apply_eq_add (g : GestureInst) (d : DisplacementData) (f : ℤ) :
    g.apply d f = addDisplacement d (g.apply GestureSequence.defaultDisplacementData f) := by
  cases g with
  | translation g =>
      show g.apply d f = addDisplacement d (g.apply GestureSequence.defaultDisplacementData f)
      unfold TranslationGesture.apply
      conv_lhs => rw [← addDisplacement_default d]
      exact addVecToLocation_addDisplacement ..
  | rotation g =>
      show g.apply d f = addDisplacement d (g.apply GestureSequence.defaultDisplacementData f)
      unfold RotationGesture.apply
      conv_lhs => rw [← addDisplacement_default d]
      exact addVecToRotation_addDisplacement ..
  | rotationSine g =>
      show g.apply d f = addDisplacement d (g.apply GestureSequence.defaultDisplacementData f)
      unfold RotationSineGesture.apply
      conv_lhs => rw [← addDisplacement_default d]
      exact addToRotation_addDisplacement ..
  | translationSine g =>
      show g.apply d f = addDisplacement d (g.apply GestureSequence.defaultDisplacementData f)
      unfold TranslationSineGesture.apply
      conv_lhs => rw [← addDisplacement_default d]
      exact addToLocation_addDisplacement ..
  | rotationWave g =>
      show g.apply d f = addDisplacement d (g.apply GestureSequence.defaultDisplacementData f)
      unfold RotationWaveGesture.apply RotationWaveGesture.boneApply
      conv_lhs => rw [← addDisplacement_default d]
      simp only [addToRotation_addDisplacement]

/-! ## A telescoping-sum helper -/

lemma Icc_split_top (a b : ℤ) (h : a ≤ b + 1) :
    Finset.Icc a (b + 1) = insert (b + 1) (Finset.Icc a b) := by
  ext x
  simp only [Finset.mem_Icc, Finset.mem_insert]
  omega

lemma telescope_sum (φ : ℤ → ℝ) (s : ℤ) :
    ∀ f : ℤ, s ≤ f → ∑ k in Finset.Icc (s + 1) f, (φ k - φ (k - 1)) = φ f - φ s := by
  refine Int.le_induction ?_ ?_
  · rw [Finset.Icc_eq_empty (by omega), Finset.sum_empty]
    ring
  · intro f hf ih
    rw [Icc_split_top (s + 1) f (by omega),
      Finset.sum_insert (by simp only [Finset.mem_Icc]; omega), ih]
    have : f + 1 - 1 = f := by ring
    rw [this]
    ring

/-! ## Per-frame contributions of the sine and wave gestures -/

lemma rotationSine_contribution (g : RotationSineGesture) (k : ℤ) :
    ((g.apply GestureSequence.defaultDisplacementData k) g.bone).rotation_euler g.axis.index
      = g.getBoneRotationAtFrame k - g.getBoneRotationAtFrame (k - 1) := by
  rw [RotationSineGesture.apply, addToRotation_rot_same]
  simp [GestureSequence.defaultDisplacementData, zeroVec]

lemma translationSine_contribution (t : TranslationSineGesture) (k : ℤ) :
    ((t.apply GestureSequence.defaultDisplacementData k) Bone.arm).location t.axis.index
      = t.getArmLocationAtFrame k - t.getArmLocationAtFrame (k - 1) := by
  rw [TranslationSineGesture.apply, addToLocation_loc_same]
  simp [GestureSequence.defaultDisplacementData, zeroVec]

lemma rotationWave_contribution_arm (w : RotationWaveGesture) (k : ℤ) :
    ((w.apply GestureSequence.defaultDisplacementData k) Bone.arm).rotation_euler w.axis.index
      = w.getArmRotationAtFrame k - w.getArmRotationAtFrame (k - 1) := by
  simp only [RotationWaveGesture.apply, RotationWaveGesture.boneApply]
  rw [addToRotation_other_bone _ _ _ _ _ (by decide),
    addToRotation_other_bone _ _ _ _ _ (by decide), addToRotation_rot_same]
  simp [GestureSequence.defaultDisplacementData, zeroVec]

lemma rotationWave_contribution_forearm (w : RotationWaveGesture) (k : ℤ) :
    ((w.apply GestureSequence.defaultDisplacementData k) Bone.forearm).rotation_euler
        w.axis.index
      = w.getForearmRotationAtFrame k - w.getForearmRotationAtFrame (k - 1) := by
  simp only [RotationWaveGesture.apply, RotationWaveGesture.boneApply]
  rw [addToRotation_other_bone _ _ _ _ _ (by decide), addToRotation_rot_same,
    addToRotation_other_bone _ _ _ _ _ (by decide)]
  simp [GestureSequence.defaultDisplacementData, zeroVec]

lemma rotationWave_contribution_hand (w : RotationWaveGesture) (k : ℤ) :
    ((w.apply GestureSequence.defaultDisplacementData k) Bone.hand).rotation_euler w.axis.index
      = w.getHandRotationAtFrame k - w.getHandRotationAtFrame (k - 1) := by
  simp only [RotationWaveGesture.apply, RotationWaveGesture.boneApply]
  rw [addToRotation_rot_same, addToRotation_other_bone _ _ _ _ _ (by decide),
    addToRotation_other_bone _ _ _ _ _ (by decide)]
  simp [GestureSequence.defaultDisplacementData, zeroVec]

/-- Claim C1: for every sinusoidal or wave gesture and every frame `f`
strictly after the start frame (every such frame is `start_frame + 1 + n`
for some natural `n`), the sum of the per-frame contributions produced by
`apply` at frames `start_frame + 1, ..., f` on the gesture's axis (each
being `wave(k) - wave(k - 1)`) equals `wave(f) - wave(start_frame)`, for
each of the three sinusoidal/wave gesture classes and, for the wave
gesture, for each of its three per-bone waveforms. -/
theorem claim_C1 (n : ℕ) (g : RotationSineGesture) (t : TranslationSineGesture)
    (w : RotationWaveGesture) :
    (∑ k in Finset.Icc (g.start_frame + 1) (g.start_frame + 1 + (n : ℤ)),
        ((g.apply GestureSequence.defaultDisplacementData k) g.bone).rotation_euler
          g.axis.index)
      = g.getBoneRotationAtFrame (g.start_frame + 1 + (n : ℤ))
        - g.getBoneRotationAtFrame g.start_frame
    ∧ (∑ k in Finset.Icc (t.start_frame + 1) (t.start_frame + 1 + (n : ℤ)),
        ((t.apply GestureSequence.defaultDisplacementData k) Bone.arm).location t.axis.index)
      = t.getArmLocationAtFrame (t.start_frame + 1 + (n : ℤ))
        - t.getArmLocationAtFrame t.start_frame
    ∧ (∑ k in Finset.Icc (w.start_frame + 1) (w.start_frame + 1 + (n : ℤ)),
        ((w.apply GestureSequence.defaultDisplacementData k) Bone.arm).rotation_euler
          w.axis.index)
      = w.getArmRotationAtFrame (w.start_frame + 1 + (n : ℤ))
        - w.getArmRotationAtFrame w.start_frame
    ∧ (∑ k in Finset.Icc (w.start_frame + 1) (w.start_frame + 1 + (n : ℤ)),
        ((w.apply GestureSequence.defaultDisplacementData k) Bone.forearm).rotation_euler
          w.axis.index)
      = w.getForearmRotationAtFrame (w.start_frame + 1 + (n : ℤ))
        - w.getForearmRotationAtFrame w.start_frame
    ∧ (∑ k in Finset.Icc (w.start_frame + 1) (w.start_frame + 1 + (n : ℤ)),
        ((w.apply GestureSequence.defaultDisplacementData k) Bone.hand).rotation_euler
          w.axis.index)
      = w.getHandRotationAtFrame (w.start_frame + 1 + (n : ℤ))
        - w.getHandRotationAtFrame w.start_frame := by
  refine ⟨?_, ?_, ?_, ?_, ?_⟩
  · rw [Finset.sum_congr rfl fun k _ => rotationSine_contribution g k]
    exact telescope_sum _ _ _ (by omega)
  · rw [Finset.sum_congr rfl fun k _ => translationSine_contribution t k]
    exact telescope_sum _ _ _ (by omega)
  · rw [Finset.sum_congr rfl fun k _ => rotationWave_contribution_arm w k]
    exact telescope_sum _ _ _ (by omega)
  · rw [Finset.sum_congr rfl fun k _ => rotationWave_contribution_forearm w k]
    exact telescope_sum _ _ _ (by omega)
  · rw [Finset.sum_congr rfl fun k _ => rotationWave_contribution_hand w k]
    exact telescope_sum _ _ _ (by omega)

/-! ## The acceleration clamp -/

open GestureSequence

lemma abs_sign_le_one (x : ℝ) : |Real.sign x| ≤ 1 := by
  rcases lt_trichotomy x 0 with hlt | heq | hpos
  · rw [Real.sign_of_neg hlt]; norm_num
  · rw [heq, Real.sign_zero]; norm_num
  · rw [Real.sign_of_pos hpos]; norm_num

lemma clipDisplacement_abs_le (limit p c : ℝ) (h : 0 ≤ limit) :
    |clipDisplacement limit p c - p| ≤ limit := by
  unfold clipDisplacement
  by_cases hgt : |c - p| > limit
  · rw [if_pos hgt]
    have h1 : p + Real.sign (c - p) * limit - p = Real.sign (c - p) * limit := by ring
    rw [h1, abs_mul]
    calc |Real.sign (c - p)| * |limit| ≤ 1 * |limit| :=
          mul_le_mul_of_nonneg_right (abs_sign_le_one _) (abs_nonneg _)
      _ = limit := by rw [one_mul, abs_of_nonneg h]
  · rw [if_neg hgt]
    exact not_lt.mp hgt

lemma clipDisplacement_of_gt (limit p c : ℝ) (h : |c - p| > limit) :
    clipDisplacement limit p c = p + Real.sign (c - p) * limit := by
  unfold clipDisplacement
  rw [if_pos h]

/-- Claim C2: in the per-frame displacement computation of
`GestureSequence.apply`, for every bone and every scalar component, the
value after the acceleration-clamp stage differs from the previous frame's
value by at most the corresponding limit (translation limit for location
components, rotation limit for rotation components), and when the unclamped
(momentum-blended) difference exceeds the limit, the value is exactly
`previous + sign(difference) * limit`. -/
theorem claim_C2 (cfg : SequenceConfig) (gs : List GestureInst) (f : ℤ)
    (previous : DisplacementData)
    (ht : 0 ≤ cfg.translation_acceleration_limit)
    (hr : 0 ≤ cfg.rotation_acceleration_limit) (b : Bone) (i : Fin 3) :
    |((getDisplacementData cfg gs f previous) b).location i - (previous b).location i|
        ≤ cfg.translation_acceleration_limit
    ∧ |((getDisplacementData cfg gs f previous) b).rotation_euler i
          - (previous b).rotation_euler i|
        ≤ cfg.rotation_acceleration_limit
    ∧ (|((applyMomentum cfg.momentum_weight previous (aggregateDisplacement gs f)) b).location i
            - (previous b).location i| > cfg.translation_acceleration_limit →
        ((getDisplacementData cfg gs f previous) b).location i
          = (previous b).location i
            + Real.sign (((applyMomentum cfg.momentum_weight previous
                  (aggregateDisplacement gs f)) b).location i - (previous b).location i)
              * cfg.translation_acceleration_limit)
    ∧ (|((applyMomentum cfg.momentum_weight previous
              (aggregateDisplacement gs f)) b).rotation_euler i
            - (previous b).rotation_euler i| > cfg.rotation_acceleration_limit →
        ((getDisplacementData cfg gs f previous) b).rotation_euler i
          = (previous b).rotation_euler i
            + Real.sign (((applyMomentum cfg.momentum_weight previous
                  (aggregateDisplacement gs f)) b).rotation_euler i
                - (previous b).rotation_euler i)
              * cfg.rotation_acceleration_limit) := by
  refine ⟨?_, ?_, ?_, ?_⟩
  · exact clipDisplacement_abs_le _ _ _ ht
  · exact clipDisplacement_abs_le _ _ _ hr
  · intro hgt
    exact clipDisplacement_of_gt _ _ _ hgt
  · intro hgt
    exact clipDisplacement_of_gt _ _ _ hgt

/-- A concrete configuration used by witnesses. -/
noncomputable def cfgW : SequenceConfig :=
  { translation_acceleration_limit := 1
    rotation_acceleration_limit := 1
    location_range := (zeroVec, zeroVec)
    arm_rotation_range := (zeroVec, zeroVec)
    forearm_rotation_range := (zeroVec, zeroVec)
    hand_rotation_range := (zeroVec, zeroVec)
    momentum_weight := 7 / 10 }

/-- Witness for claim C2 at a concrete configuration, frame, and component. -/
theorem claim_C2_witness :
    (0 : ℝ) ≤ cfgW.translation_acceleration_limit
    ∧ (0 : ℝ) ≤ cfgW.rotation_acceleration_limit
    ∧ (|((getDisplacementData cfgW [] 1 defaultDisplacementData) Bone.arm).location 0
          - (defaultDisplacementData Bone.arm).location 0|
        ≤ cfgW.translation_acceleration_limit
      ∧ |((getDisplacementData cfgW [] 1 defaultDisplacementData) Bone.arm).rotation_euler 0
            - (defaultDisplacementData Bone.arm).rotation_euler 0|
          ≤ cfgW.rotation_acceleration_limit
      ∧ (|((applyMomentum cfgW.momentum_weight defaultDisplacementData
                (aggregateDisplacement [] 1)) Bone.arm).location 0
              - (defaultDisplacementData Bone.arm).location 0|
            > cfgW.translation_acceleration_limit →
          ((getDisplacementData cfgW [] 1 defaultDisplacementData) Bone.arm).location 0
            = (defaultDisplacementData Bone.arm).location 0
              + Real.sign (((applyMomentum cfgW.momentum_weight defaultDisplacementData
                    (aggregateDisplacement [] 1)) Bone.arm).location 0
                  - (defaultDisplacementData Bone.arm).location 0)
                * cfgW.translation_acceleration_limit)
      ∧ (|((applyMomentum cfgW.momentum_weight defaultDisplacementData
                (aggregateDisplacement [] 1)) Bone.arm).rotation_euler 0
              - (defaultDisplacementData Bone.arm).rotation_euler 0|
            > cfgW.rotation_acceleration_limit →
          ((getDisplacementData cfgW [] 1 defaultDisplacementData) Bone.arm).rotation_euler 0
            = (defaultDisplacementData Bone.arm).rotation_euler 0
              + Real.sign (((applyMomentum cfgW.momentum_weight defaultDisplacementData
                    (aggregateDisplacement [] 1)) Bone.arm).rotation_euler 0
                  - (defaultDisplacementData Bone.arm).rotation_euler 0)
                * cfgW.rotation_acceleration_limit)) :=
  ⟨by norm_num [cfgW], by norm_num [cfgW],
    claim_C2 cfgW [] 1 defaultDisplacementData (by norm_num [cfgW]) (by norm_num [cfgW])
      Bone.arm 0⟩

/-! ## Momentum blending (claim C3) -/

/-- Claim C3 (amended): the momentum-blending stage computes
`blended = previous * w + current * (1 - w)` componentwise from the
displacement data of the previous frame as stored by the sequence (which is
the post-clamp data after the in-place range-limiting of the keyframe
insertion, see the counterexample); with momentum weight 0 the stage is the
identity, so the displacement equals the raw aggregated contribution up to
the acceleration clamp. -/
theorem claim_C3 :
    (∀ (momentum_weight : ℝ) (previous d : DisplacementData) (b : Bone) (i : Fin 3),
        ((applyMomentum momentum_weight previous d) b).location i
          = (previous b).location i * momentum_weight
            + (d b).location i * (1 - momentum_weight)
        ∧ ((applyMomentum momentum_weight previous d) b).rotation_euler i
          = (previous b).rotation_euler i * momentum_weight
            + (d b).rotation_euler i * (1 - momentum_weight))
    ∧ (∀ previous d, applyMomentum 0 previous d = d)
    ∧ (∀ (tl rl : ℝ) (lr ar fr hr : Vec3 × Vec3) (gs : List GestureInst) (f : ℤ)
          (previous : DisplacementData),
        getDisplacementData ⟨tl, rl, lr, ar, fr, hr, 0⟩ gs f previous
          = limitAcceleration tl rl previous (aggregateDisplacement gs f)) := by
  have hzero : ∀ (previous d : DisplacementData), applyMomentum 0 previous d = d := by
    intro previous d
    funext b
    ext i
    · simp [applyMomentum]
    · simp [applyMomentum]
  refine ⟨fun w previous d b i => ⟨rfl, rfl⟩, hzero, ?_⟩
  intro tl rl lr ar fr hr gs f previous
  show limitAcceleration tl rl previous (applyMomentum 0 previous (aggregateDisplacement gs f))
      = limitAcceleration tl rl previous (aggregateDisplacement gs f)
  rw [hzero]

/-- The concrete linear gesture of the claim C3 counterexample run:
`TranslationGesture(start_frame=1, end_frame=5, vector=(-4,-4,-4),
relative=True)` constructed at frame 1 with all bones at the origin. -/
noncomputable def cexC3T : TranslationGesture :=
  { start_frame := 1, end_frame := 5, vector := fun _ => -4, relative := true
    initial_location := zeroVec }

noncomputable def cexC3Inst : GestureInst := .translation cexC3T

noncomputable def cexC3Decl : GestureDecl := .translation 1 5 (fun _ => -4) true

/-- The configuration of the counterexample run: momentum weight 1/2, large
acceleration limits, location range `[0, 100]` on every component. -/
noncomputable def cexC3Cfg : SequenceConfig :=
  { translation_acceleration_limit := 1000
    rotation_acceleration_limit := 1000
    location_range := (zeroVec, fun _ => 100)
    arm_rotation_range := (fun _ => -100, fun _ => 100)
    forearm_rotation_range := (fun _ => -100, fun _ => 100)
    hand_rotation_range := (fun _ => -100, fun _ => 100)
    momentum_weight := 1 / 2 }

/-- The initial state of the counterexample run. -/
noncomputable def cexC3State0 : SeqState :=
  { remaining := [cexC3Decl], current := []
    bones := fun _ => { location := zeroVec, rotation_euler := zeroVec }
    previous_displacement_data := defaultDisplacementData }

/-- Frame 1's post-clamp displacement data in the counterexample run. -/
noncomputable def cexC3Dpost : DisplacementData := fun b =>
  match b with
  | Bone.arm => { location := fun _ => -(1 / 2 : ℝ), rotation_euler := zeroVec }
  | Bone.forearm => { location := zeroVec, rotation_euler := zeroVec }
  | Bone.hand => { location := zeroVec, rotation_euler := zeroVec }

lemma cexC3_translation : cexC3T.translation = fun _ => (-1 : ℝ) := by
  funext i
  simp only [TranslationGesture.translation, cexC3T, TranslationGesture.duration]
  norm_num

lemma cexC3_aggregate (f : ℤ) :
    aggregateDisplacement [cexC3Inst] f
      = addVecToLocation defaultDisplacementData Bone.arm (fun _ => -1) := by
  have h : aggregateDisplacement [cexC3Inst] f
      = addVecToLocation defaultDisplacementData Bone.arm cexC3T.translation := rfl
  rw [h, cexC3_translation]

lemma clipDisplacement_of_le (limit p c : ℝ) (h : |c - p| ≤ limit) :
    clipDisplacement limit p c = c := by
  unfold clipDisplacement
  rw [if_neg (not_lt.mpr h)]

lemma cexC3_agg_arm_loc (f : ℤ) (i : Fin 3) :
    ((aggregateDisplacement [cexC3Inst] f) Bone.arm).location i = -1 := by
  rw [cexC3_aggregate, addVecToLocation_loc_same]
  simp [defaultDisplacementData, zeroVec]

lemma cexC3_agg_arm_rot (f : ℤ) (i : Fin 3) :
    ((aggregateDisplacement [cexC3Inst] f) Bone.arm).rotation_euler i = 0 := by
  rw [cexC3_aggregate]
  simp [addVecToLocation, defaultDisplacementData, zeroVec]

lemma cexC3_agg_other (f : ℤ) (b : Bone) (h : b ≠ Bone.arm) :
    (aggregateDisplacement [cexC3Inst] f) b
      = { location := zeroVec, rotation_euler := zeroVec } := by
  rw [cexC3_aggregate, addVecToLocation_other_bone _ _ _ _ h]
  rfl

lemma cexC3_mom_arm_loc (i : Fin 3) :
    ((applyMomentum cexC3Cfg.momentum_weight defaultDisplacementData
        (aggregateDisplacement [cexC3Inst] 1)) Bone.arm).location i = -(1 / 2) := by
  simp only [applyMomentum]
  rw [cexC3_agg_arm_loc]
  norm_num [defaultDisplacementData, zeroVec, cexC3Cfg]

lemma cexC3_mom_arm_rot (i : Fin 3) :
    ((applyMomentum cexC3Cfg.momentum_weight defaultDisplacementData
        (aggregateDisplacement [cexC3Inst] 1)) Bone.arm).rotation_euler i = 0 := by
  simp only [applyMomentum]
  rw [cexC3_agg_arm_rot]
  norm_num [defaultDisplacementData, zeroVec]

lemma cexC3_mom_other_loc (b : Bone) (h : b ≠ Bone.arm) (i : Fin 3) :
    ((applyMomentum cexC3Cfg.momentum_weight defaultDisplacementData
        (aggregateDisplacement [cexC3Inst] 1)) b).location i = 0 := by
  simp only [applyMomentum]
  rw [cexC3_agg_other 1 b h]
  norm_num [defaultDisplacementData, zeroVec]

lemma cexC3_mom_other_rot (b : Bone) (h : b ≠ Bone.arm) (i : Fin 3) :
    ((applyMomentum cexC3Cfg.momentum_weight defaultDisplacementData
        (aggregateDisplacement [cexC3Inst] 1)) b).rotation_euler i = 0 := by
  simp only [applyMomentum]
  rw [cexC3_agg_other 1 b h]
  norm_num [defaultDisplacementData, zeroVec]

lemma cexC3_dpost :
    getDisplacementData cexC3Cfg [cexC3Inst] 1 defaultDisplacementData = cexC3Dpost := by
  funext b
  have hlim : cexC3Cfg.translation_acceleration_limit = 1000 := rfl
  have hrlim : cexC3Cfg.rotation_acceleration_limit = 1000 := rfl
  cases b
  case arm =>
    ext i
    · show clipDisplacement cexC3Cfg.translation_acceleration_limit
          ((defaultDisplacementData Bone.arm).location i)
          (((applyMomentum cexC3Cfg.momentum_weight defaultDisplacementData
              (aggregateDisplacement [cexC3Inst] 1)) Bone.arm).location i)
        = (cexC3Dpost Bone.arm).location i
      rw [cexC3_mom_arm_loc, hlim]
      rw [clipDisplacement_of_le _ _ _ (by
        rw [show (-(1 / 2 : ℝ)) - (defaultDisplacementData Bone.arm).location i = -(1 / 2) by
          simp [defaultDisplacementData, zeroVec]]
        rw [abs_neg, abs_of_nonneg (by norm_num : (0 : ℝ) ≤ 1 / 2)]
        norm_num)]
      rfl
    · show clipDisplacement cexC3Cfg.rotation_acceleration_limit
          ((defaultDisplacementData Bone.arm).rotation_euler i)
          (((applyMomentum cexC3Cfg.momentum_weight defaultDisplacementData
              (aggregateDisplacement [cexC3Inst] 1)) Bone.arm).rotation_euler i)
        = (cexC3Dpost Bone.arm).rotation_euler i
      rw [cexC3_mom_arm_rot, hrlim]
      rw [clipDisplacement_of_le _ _ _ (by
        simp [defaultDisplacementData, zeroVec])]
      rfl
  case forearm =>
    ext i
    · show clipDisplacement cexC3Cfg.translation_acceleration_limit
          ((defaultDisplacementData Bone.forearm).location i)
          (((applyMomentum cexC3Cfg.momentum_weight defaultDisplacementData
              (aggregateDisplacement [cexC3Inst] 1)) Bone.forearm).location i)
        = (cexC3Dpost Bone.forearm).location i
      rw [cexC3_mom_other_loc Bone.forearm (by decide), hlim]
      rw [clipDisplacement_of_le _ _ _ (by simp [defaultDisplacementData, zeroVec])]
      rfl
    · show clipDisplacement cexC3Cfg.rotation_acceleration_limit
          ((defaultDisplacementData Bone.forearm).rotation_euler i)
          (((applyMomentum cexC3Cfg.momentum_weight defaultDisplacementData
              (aggregateDisplacement [cexC3Inst] 1)) Bone.forearm).rotation_euler i)
        = (cexC3Dpost Bone.forearm).rotation_euler i
      rw [cexC3_mom_other_rot Bone.forearm (by decide), hrlim]
      rw [clipDisplacement_of_le _ _ _ (by simp [defaultDisplacementData, zeroVec])]
      rfl
  case hand =>
    ext i
    · show clipDisplacement cexC3Cfg.translation_acceleration_limit
          ((defaultDisplacementData Bone.hand).location i)
          (((applyMomentum cexC3Cfg.momentum_weight defaultDisplacementData
              (aggregateDisplacement [cexC3Inst] 1)) Bone.hand).location i)
        = (cexC3Dpost Bone.hand).location i
      rw [cexC3_mom_other_loc Bone.hand (by decide), hlim]
      rw [clipDisplacement_of_le _ _ _ (by simp [defaultDisplacementData, zeroVec])]
      rfl
    · show clipDisplacement cexC3Cfg.rotation_acceleration_limit
          ((defaultDisplacementData Bone.hand).rotation_euler i)
          (((applyMomentum cexC3Cfg.momentum_weight defaultDisplacementData
              (aggregateDisplacement [cexC3Inst] 1)) Bone.hand).rotation_euler i)
        = (cexC3Dpost Bone.hand).rotation_euler i
      rw [cexC3_mom_other_rot Bone.hand (by decide), hrlim]
      rw [clipDisplacement_of_le _ _ _ (by simp [defaultDisplacementData, zeroVec])]
      rfl

lemma cexC3_limited : getLimitedValue 0 (-(1 / 2) : ℝ) 0 100 = -(1 / 2) * slowFactor (1 / 2) := by
  unfold getLimitedValue
  norm_num

/-- The bone states after frame 1's keyframe insertion in the
counterexample run. -/
noncomputable def cexC3Bones1 : Bone → BoneData :=
  Function.update cexC3State0.bones Bone.arm
    { location := fun i => (cexC3State0.bones Bone.arm).location i
        + (-(1 / 2 : ℝ) * slowFactor (1 / 2))
      rotation_euler := (cexC3State0.bones Bone.arm).rotation_euler }

/-- Frame 1's displacement data as stored for the next frame: the arm's
location components were range-limited in place. -/
noncomputable def cexC3Prev1 : DisplacementData :=
  Function.update cexC3Dpost Bone.arm
    { location := fun _ => -(1 / 2 : ℝ) * slowFactor (1 / 2)
      rotation_euler := (cexC3Dpost Bone.arm).rotation_euler }

lemma insertLocationKeyframe_of_zero (cfg : SequenceConfig) (bones : Bone → BoneData)
    (bone : Bone) (d : DisplacementData) (h : (d bone).location = zeroVec) :
    insertLocationKeyframe cfg bones bone d = (bones, d) := by
  simp only [insertLocationKeyframe]
  rw [dif_pos h]

lemma insertRotationKeyframe_of_zero (cfg : SequenceConfig) (bones : Bone → BoneData)
    (bone : Bone) (d : DisplacementData) (h : (d bone).rotation_euler = zeroVec) :
    insertRotationKeyframe cfg bones bone d = (bones, d) := by
  simp only [insertRotationKeyframe]
  rw [dif_pos h]

lemma insertKeyframe_of_zero (cfg : SequenceConfig) (bones : Bone → BoneData)
    (bone : Bone) (d : DisplacementData) (hl : (d bone).location = zeroVec)
    (hr : (d bone).rotation_euler = zeroVec) :
    insertKeyframe cfg bones bone d = (bones, d) := by
  unfold insertKeyframe
  rw [insertLocationKeyframe_of_zero cfg bones bone d hl]
  exact insertRotationKeyframe_of_zero cfg bones bone d hr

lemma cexC3_insert_arm :
    insertKeyframe cexC3Cfg cexC3State0.bones Bone.arm cexC3Dpost
      = (cexC3Bones1, cexC3Prev1) := by
  have hnz : ¬ (cexC3Dpost Bone.arm).location = zeroVec := by
    intro h
    have h0 := congrFun h 0
    norm_num [cexC3Dpost, zeroVec] at h0
  have hloc : insertLocationKeyframe cexC3Cfg cexC3State0.bones Bone.arm cexC3Dpost
      = (cexC3Bones1, cexC3Prev1) := by
    simp only [insertLocationKeyframe]
    rw [dif_neg hnz]
    have hlim : ∀ i : Fin 3,
        getLimitedValue ((cexC3State0.bones Bone.arm).location i)
          ((cexC3Dpost Bone.arm).location i)
          (cexC3Cfg.location_range.1 i) (cexC3Cfg.location_range.2 i)
        = -(1 / 2 : ℝ) * slowFactor (1 / 2) := by
      intro i
      show getLimitedValue 0 (-(1 / 2)) 0 100 = -(1 / 2) * slowFactor (1 / 2)
      exact cexC3_limited
    simp only [hlim]
    rfl
  have hrot : (cexC3Prev1 Bone.arm).rotation_euler = zeroVec := by
    rw [cexC3Prev1, Function.update_same]
    rfl
  unfold insertKeyframe
  rw [hloc]
  exact insertRotationKeyframe_of_zero cexC3Cfg cexC3Bones1 Bone.arm cexC3Prev1 hrot

lemma cexC3_prev1_other (b : Bone) (h : b ≠ Bone.arm) :
    cexC3Prev1 b = { location := zeroVec, rotation_euler := zeroVec } := by
  rw [cexC3Prev1, Function.update_noteq h]
  cases b
  · exact absurd rfl h
  · rfl
  · rfl

lemma cexC3_prev1 :
    (step cexC3Cfg cexC3State0 1).previous_displacement_data = cexC3Prev1 := by
  have hlist : ((updateCurrentGestures cexC3State0.current 1 ++
      (cexC3State0.remaining.filter fun decl => decide (decl.startFrame = 1)).map
        (fun decl => (decl.construct cexC3State0.bones, decl.args))).map Prod.fst)
      = [cexC3Inst] := rfl
  have hfore : insertKeyframe cexC3Cfg cexC3Bones1 Bone.forearm cexC3Prev1
      = (cexC3Bones1, cexC3Prev1) :=
    insertKeyframe_of_zero _ _ _ _
      (by rw [cexC3_prev1_other Bone.forearm (by decide)])
      (by rw [cexC3_prev1_other Bone.forearm (by decide)])
  have hhand : insertKeyframe cexC3Cfg cexC3Bones1 Bone.hand cexC3Prev1
      = (cexC3Bones1, cexC3Prev1) :=
    insertKeyframe_of_zero _ _ _ _
      (by rw [cexC3_prev1_other Bone.hand (by decide)])
      (by rw [cexC3_prev1_other Bone.hand (by decide)])
  simp only [step]
  rw [hlist]
  rw [show cexC3State0.previous_displacement_data = defaultDisplacementData from rfl]
  rw [cexC3_dpost]
  simp only [cexC3_insert_arm, hfore, hhand]

lemma cexC3_slowFactor_ne_one : slowFactor (1 / 2 : ℝ) ≠ 1 := by
  unfold slowFactor
  intro h
  rw [abs_of_nonneg (by norm_num : (0 : ℝ) ≤ 1 / 2)] at h
  have hden : (1 : ℝ) + Real.exp (-(10 : ℝ) * (1 / 2)) ≠ 0 := by positivity
  field_simp at h
  have h1 : Real.exp (-(10 : ℝ) * (1 / 2)) = 1 := by linarith
  rw [Real.exp_eq_one_iff] at h1
  norm_num at h1

/-- Counterexample to claim C3 as stated: in a concrete run (one relative
translation gesture of vector (-4,-4,-4) over frames 1..5, momentum weight
1/2, location range [0,100]), the momentum blend of frame 2 does not use
frame 1's post-clamp displacement data: the stored previous data was
further rescaled in place by the range-limiting easing factor during
keyframe insertion. -/
theorem claim_C3_counterexample :
    (currentDuring (step cexC3Cfg cexC3State0 1) 2).map Prod.fst = [cexC3Inst]
    ∧ ((applyMomentum cexC3Cfg.momentum_weight
          (step cexC3Cfg cexC3State0 1).previous_displacement_data
          (aggregateDisplacement [cexC3Inst] 2)) Bone.arm).location 0
      ≠ ((applyMomentum cexC3Cfg.momentum_weight
          (getDisplacementData cexC3Cfg [cexC3Inst] 1 defaultDisplacementData)
          (aggregateDisplacement [cexC3Inst] 2)) Bone.arm).location 0 := by
  constructor
  · rfl
  · rw [cexC3_prev1, cexC3_dpost]
    simp only [applyMomentum]
    rw [cexC3_agg_arm_loc]
    have hp : (cexC3Prev1 Bone.arm).location 0 = -(1 / 2) * slowFactor (1 / 2) := by
      rw [cexC3Prev1, Function.update_same]
    have hd : (cexC3Dpost Bone.arm).location 0 = -(1 / 2) := rfl
    rw [hp, hd]
    have hw : cexC3Cfg.momentum_weight = 1 / 2 := rfl
    rw [hw]
    intro heq
    have h1 : slowFactor (1 / 2) = 1 := by linarith
    exact cexC3_slowFactor_ne_one h1

/-! ## Range limiting (claim C4) -/

lemma slowFactor_pos (x : ℝ) : 0 < slowFactor x := by
  unfold slowFactor
  have hE : 0 < Real.exp (-(10 : ℝ) * |x|) := Real.exp_pos _
  have hden : (0 : ℝ) < 1 + Real.exp (-(10 : ℝ) * |x|) := by positivity
  have hlt : 2 / (1 + Real.exp (-(10 : ℝ) * |x|)) < 2 := by
    rw [div_lt_iff₀ hden]
    nlinarith
  have hrw : (-2 : ℝ) / (1 + Real.exp (-(10 : ℝ) * |x|))
      = -(2 / (1 + Real.exp (-(10 : ℝ) * |x|))) := by ring
  rw [hrw]
  linarith

lemma slowFactor_le_one (x : ℝ) : slowFactor x ≤ 1 := by
  unfold slowFactor
  have hE : 0 < Real.exp (-(10 : ℝ) * |x|) := Real.exp_pos _
  have hE1 : Real.exp (-(10 : ℝ) * |x|) ≤ 1 := by
    rw [Real.exp_le_one_iff]
    have := abs_nonneg x
    nlinarith
  have hden : (0 : ℝ) < 1 + Real.exp (-(10 : ℝ) * |x|) := by positivity
  have hge : 1 ≤ 2 / (1 + Real.exp (-(10 : ℝ) * |x|)) := by
    rw [le_div_iff₀ hden]
    linarith
  have hrw : (-2 : ℝ) / (1 + Real.exp (-(10 : ℝ) * |x|))
      = -(2 / (1 + Real.exp (-(10 : ℝ) * |x|))) := by ring
  rw [hrw]
  linarith

lemma slowFactor_strictAnti (x y : ℝ) (hx : 0 ≤ x) (hxy : x < y) :
    slowFactor y < slowFactor x := by
  unfold slowFactor
  rw [abs_of_nonneg hx, abs_of_nonneg (le_trans hx (le_of_lt hxy))]
  have hE : Real.exp (-(10 : ℝ) * y) < Real.exp (-(10 : ℝ) * x) :=
    Real.exp_lt_exp.mpr (by nlinarith)
  have hdy : (0 : ℝ) < 1 + Real.exp (-(10 : ℝ) * y) := by positivity
  have hdx : (0 : ℝ) < 1 + Real.exp (-(10 : ℝ) * x) := by positivity
  have hdiv : 2 / (1 + Real.exp (-(10 : ℝ) * x)) < 2 / (1 + Real.exp (-(10 : ℝ) * y)) :=
    div_lt_div_of_pos_left (by norm_num) hdy (by linarith)
  have hrwx : (-2 : ℝ) / (1 + Real.exp (-(10 : ℝ) * x))
      = -(2 / (1 + Real.exp (-(10 : ℝ) * x))) := by ring
  have hrwy : (-2 : ℝ) / (1 + Real.exp (-(10 : ℝ) * y))
      = -(2 / (1 + Real.exp (-(10 : ℝ) * y))) := by ring
  rw [hrwx, hrwy]
  linarith

/-- Claim C4: `_get_limited_value` returns the displacement scaled by
`slowFactor(minimum - next)` when the next value undershoots the minimum
while moving down, by `slowFactor(next - maximum)` when it overshoots the
maximum while moving up, and returns the displacement unchanged otherwise;
the easing factor `slowFactor x = -2/(1+e^(-10|x|)) + 2` lies in `(0, 1]`
and strictly shrinks as the overshoot grows. -/
theorem claim_C4 (current displacement_value minimum maximum : ℝ) :
    (current + displacement_value < minimum ∧ current + displacement_value < current →
      getLimitedValue current displacement_value minimum maximum
        = displacement_value * slowFactor (minimum - (current + displacement_value)))
    ∧ (current + displacement_value > maximum ∧ current + displacement_value > current →
      getLimitedValue current displacement_value minimum maximum
        = displacement_value * slowFactor ((current + displacement_value) - maximum))
    ∧ (¬(current + displacement_value < minimum ∧ current + displacement_value < current) →
        ¬(current + displacement_value > maximum ∧ current + displacement_value > current) →
      getLimitedValue current displacement_value minimum maximum = displacement_value)
    ∧ (∀ x : ℝ, 0 < slowFactor x ∧ slowFactor x ≤ 1)
    ∧ (∀ x y : ℝ, 0 ≤ x → x < y → slowFactor y < slowFactor x) := by
  refine ⟨?_, ?_, ?_, fun x => ⟨slowFactor_pos x, slowFactor_le_one x⟩, slowFactor_strictAnti⟩
  · intro h
    simp only [getLimitedValue]
    rw [if_pos h]
  · intro h
    simp only [getLimitedValue]
    rw [if_neg (fun hc => absurd hc.2 (not_lt.mpr (le_of_lt h.2))), if_pos h]
  · intro h1 h2
    simp only [getLimitedValue]
    rw [if_neg h1, if_neg h2]

/-- Witness for claim C4: a joint at -2 pushed by -1 against the minimum 0
is damped by the easing factor. -/
theorem claim_C4_witness :
    ((-2 : ℝ) + -1 < 0 ∧ (-2 : ℝ) + -1 < -2)
    ∧ getLimitedValue (-2) (-1) 0 10 = (-1) * slowFactor (0 - ((-2) + -1)) :=
  ⟨by norm_num, (claim_C4 (-2) (-1) 0 10).1 (by norm_num)⟩

/-! ## Linear ramp gestures (claim C5) -/

/-- Claim C5: a linear translation or rotation ramp gesture over the window
`[start_frame, end_frame]` (here `end_frame = start_frame + 1 + n`, so the
constructor invariant `start_frame < end_frame` holds) adds the same
contribution at every frame, `target / duration` per component, where
`target` is the given vector in relative mode and the given vector minus
the joint value captured at construction in absolute mode; summed over the
frames `start_frame, ..., end_frame - 1` at which the gesture is applied,
the contributions add up to exactly `target`.  The construction of the
gesture object captures the joint value current at that moment. -/
theorem claim_C5 (s : ℤ) (n : ℕ) (v initial : Vec3) (rel : Bool) (bn : Bone)
    (eu initialr : Vec3) :
    (∀ (d : DisplacementData) (f : ℤ) (i : Fin 3),
        ((TranslationGesture.apply ⟨s, s + 1 + (n : ℤ), v, rel, initial⟩ d f) Bone.arm).location i
          = (d Bone.arm).location i
            + (if rel then v i else v i - initial i) / (((s + 1 + (n : ℤ)) - s : ℤ) : ℝ))
    ∧ (∀ i : Fin 3,
        ∑ k in Finset.Ico s (s + 1 + (n : ℤ)),
          ((TranslationGesture.apply ⟨s, s + 1 + (n : ℤ), v, rel, initial⟩
              GestureSequence.defaultDisplacementData k) Bone.arm).location i
          = (if rel then v i else v i - initial i))
    ∧ (∀ (d : DisplacementData) (f : ℤ) (i : Fin 3),
        ((RotationGesture.apply ⟨s, s + 1 + (n : ℤ), bn, eu, rel, initialr⟩ d f) bn).rotation_euler i
          = (d bn).rotation_euler i
            + (if rel then eu i else eu i - initialr i) / (((s + 1 + (n : ℤ)) - s : ℤ) : ℝ))
    ∧ (∀ i : Fin 3,
        ∑ k in Finset.Ico s (s + 1 + (n : ℤ)),
          ((RotationGesture.apply ⟨s, s + 1 + (n : ℤ), bn, eu, rel, initialr⟩
              GestureSequence.defaultDisplacementData k) bn).rotation_euler i
          = (if rel then eu i else eu i - initialr i))
    ∧ (∀ bones : Bone → BoneData,
        GestureDecl.construct (.translation s (s + 1 + (n : ℤ)) v rel) bones
          = .translation ⟨s, s + 1 + (n : ℤ), v, rel, (bones Bone.arm).location⟩)
    ∧ (∀ bones : Bone → BoneData,
        GestureDecl.construct (.rotation s (s + 1 + (n : ℤ)) bn eu rel) bones
          = .rotation ⟨s, s + 1 + (n : ℤ), bn, eu, rel, (bones bn).rotation_euler⟩) := by
  have hcast : (((s + 1 + (n : ℤ)) - s : ℤ) : ℝ) = (n : ℝ) + 1 := by push_cast; ring
  have hne : (((s + 1 + (n : ℤ)) - s : ℤ) : ℝ) ≠ 0 := by
    rw [hcast]
    positivity
  have htper : ∀ (d : DisplacementData) (f : ℤ) (i : Fin 3),
      ((TranslationGesture.apply ⟨s, s + 1 + (n : ℤ), v, rel, initial⟩ d f) Bone.arm).location i
        = (d Bone.arm).location i
          + (if rel then v i else v i - initial i) / (((s + 1 + (n : ℤ)) - s : ℤ) : ℝ) := by
    intro d f i
    rw [TranslationGesture.apply, addVecToLocation_loc_same]
    rfl
  have hrper : ∀ (d : DisplacementData) (f : ℤ) (i : Fin 3),
      ((RotationGesture.apply ⟨s, s + 1 + (n : ℤ), bn, eu, rel, initialr⟩ d f) bn).rotation_euler i
        = (d bn).rotation_euler i
          + (if rel then eu i else eu i - initialr i) / (((s + 1 + (n : ℤ)) - s : ℤ) : ℝ) := by
    intro d f i
    rw [RotationGesture.apply, addVecToRotation_rot_same]
    rfl
  refine ⟨htper, ?_, hrper, ?_, fun bones => rfl, fun bones => rfl⟩
  · intro i
    have hsummand : ∀ k ∈ Finset.Ico s (s + 1 + (n : ℤ)),
        ((TranslationGesture.apply ⟨s, s + 1 + (n : ℤ), v, rel, initial⟩
            GestureSequence.defaultDisplacementData k) Bone.arm).location i
          = (if rel then v i else v i - initial i) / (((s + 1 + (n : ℤ)) - s : ℤ) : ℝ) := by
      intro k _
      rw [htper]
      simp [GestureSequence.defaultDisplacementData, zeroVec]
    rw [Finset.sum_congr rfl hsummand, Finset.sum_const, Int.card_Ico, nsmul_eq_mul]
    rw [show ((s + 1 + (n : ℤ)) - s).toNat = n + 1 by omega]
    rw [hcast]
    push_cast
    field_simp
    split_ifs <;> ring
  · intro i
    have hsummand : ∀ k ∈ Finset.Ico s (s + 1 + (n : ℤ)),
        ((RotationGesture.apply ⟨s, s + 1 + (n : ℤ), bn, eu, rel, initialr⟩
            GestureSequence.defaultDisplacementData k) bn).rotation_euler i
          = (if rel then eu i else eu i - initialr i) / (((s + 1 + (n : ℤ)) - s : ℤ) : ℝ) := by
      intro k _
      rw [hrper]
      simp [GestureSequence.defaultDisplacementData, zeroVec]
    rw [Finset.sum_congr rfl hsummand, Finset.sum_const, Int.card_Ico, nsmul_eq_mul]
    rw [show ((s + 1 + (n : ℤ)) - s).toNat = n + 1 by omega]
    rw [hcast]
    push_cast
    field_simp
    split_ifs <;> ring

/-! ## The sinusoidal waveform (claim C6) -/

/-- Claim C6 (amended): the continuous waveform of a sinusoidal single-axis
gesture at frame `f` is
`amplitude * sin(2*pi*(f-1)/frame_rate * frequency + phase_shift)` where the
frequency factor is the configured `wave_period` value used directly as a
multiplier (not its reciprocal), and the per-frame contribution added to
the chosen axis is the discrete derivative `wave(f) - wave(f-1)`. -/
theorem claim_C6 (g : RotationSineGesture) (t : TranslationSineGesture) (f : ℤ)
    (d : DisplacementData) :
    g.getBoneRotationAtFrame f
      = g.wave_amplitude
        * Real.sin (2 * Real.pi * (((f : ℝ) - 1) / (g.frame_rate : ℝ)) * g.wave_period
            + g.phase_shift)
    ∧ ((g.apply d f) g.bone).rotation_euler g.axis.index
      = (d g.bone).rotation_euler g.axis.index
        + (g.getBoneRotationAtFrame f - g.getBoneRotationAtFrame (f - 1))
    ∧ t.getArmLocationAtFrame f
      = t.wave_amplitude
        * Real.sin (2 * Real.pi * (((f : ℝ) - 1) / (t.frame_rate : ℝ)) * t.wave_period
            + t.phase_shift)
    ∧ ((t.apply d f) Bone.arm).location t.axis.index
      = (d Bone.arm).location t.axis.index
        + (t.getArmLocationAtFrame f - t.getArmLocationAtFrame (f - 1)) := by
  refine ⟨?_, ?_, ?_, ?_⟩
  · rw [RotationSineGesture.getBoneRotationAtFrame, mul_comm]
    congr 2
    ring
  · rw [RotationSineGesture.apply, addToRotation_rot_same]
  · rw [TranslationSineGesture.getArmLocationAtFrame, mul_comm]
    congr 2
    ring
  · rw [TranslationSineGesture.apply, addToLocation_loc_same]

/-- The sinusoidal waveform as claim C6 words it: the oscillation rate taken
to be the reciprocal of the configured wave period. -/
noncomputable def specWaveReciprocal (g : RotationSineGesture) (frame : ℤ) : ℝ :=
  g.wave_amplitude
    * Real.sin (2 * Real.pi * (((frame : ℝ) - 1) / (g.frame_rate : ℝ)) * (1 / g.wave_period)
        + g.phase_shift)

/-- A concrete sine gesture: frame rate 8, wave period 4, amplitude 1, no
phase shift. -/
noncomputable def cexC6 : RotationSineGesture :=
  { start_frame := 1, end_frame := 9, bone := Bone.arm, frame_rate := 8
    axis := Axis.X_AXIS, phase_shift := 0, wave_period := 4, wave_amplitude := 1 }

/-- Counterexample to claim C6 as stated: with `wave_period = 4` and
`frame_rate = 8` the waveform at frame 2 is `sin(pi) = 0` (the code
multiplies by `wave_period`), not `sin(pi/16) > 0` (what the reciprocal
reading predicts). -/
theorem claim_C6_counterexample :
    RotationSineGesture.getBoneRotationAtFrame cexC6 2 ≠ specWaveReciprocal cexC6 2 := by
  have hL : RotationSineGesture.getBoneRotationAtFrame cexC6 2 = 0 := by
    show Real.sin ((((2 : ℤ) : ℝ) - 1) / (((8 : ℤ) : ℝ)) * 2 * Real.pi * 4 + 0) * 1 = 0
    rw [show (((2 : ℤ) : ℝ) - 1) / (((8 : ℤ) : ℝ)) * 2 * Real.pi * 4 + 0 = Real.pi by
      push_cast
      ring]
    rw [Real.sin_pi, zero_mul]
  have hR : 0 < specWaveReciprocal cexC6 2 := by
    show 0 < (1 : ℝ)
        * Real.sin (2 * Real.pi * ((((2 : ℤ) : ℝ) - 1) / (((8 : ℤ) : ℝ))) * (1 / 4) + 0)
    rw [show 2 * Real.pi * ((((2 : ℤ) : ℝ) - 1) / (((8 : ℤ) : ℝ))) * (1 / 4) + 0
        = Real.pi / 16 by
      push_cast
      ring]
    rw [one_mul]
    exact Real.sin_pos_of_pos_of_lt_pi (by positivity) (by linarith [Real.pi_pos])
  intro h
  rw [hL] at h
  rw [← h] at hR
  exact lt_irrefl 0 hR

/-! ## Gesture lifecycle (claim C7) -/

lemma retiresAt_eq_true_iff (args : GestureArgs) (f : ℤ) :
    retiresAt args f = true
      ↔ (args.end_frame = some f ∨ (args.end_frame = none ∧ f = args.start_frame + 1)) := by
  cases h : args.end_frame with
  | none => simp [retiresAt, h]
  | some e => simp [retiresAt, h]

/-- Claim C7 (amended): a gesture moves from the remaining queue to the
current set exactly at the frame where `current_frame == start_frame`
(constructed against the bone state current at that moment), and it is
removed from the current set at the frame where `current_frame == end_frame`
when its arguments declare an `end_frame` (so its last contribution is at
`end_frame - 1`), and at `current_frame == start_frame + 1` for single-frame
event gestures declared without an `end_frame` (so they contribute only at
`start_frame`). -/
theorem claim_C7 :
    (∀ (current : List (GestureInst × GestureArgs)) (f : ℤ) (p : GestureInst × GestureArgs),
        p ∈ updateCurrentGestures current f
          ↔ p ∈ current
            ∧ ¬(p.2.end_frame = some f ∨ (p.2.end_frame = none ∧ f = p.2.start_frame + 1)))
    ∧ (∀ (cfg : SequenceConfig) (s : SeqState) (f : ℤ),
        (step cfg s f).remaining
          = s.remaining.filter fun decl => !decide (decl.startFrame = f))
    ∧ (∀ (cfg : SequenceConfig) (s : SeqState) (f : ℤ),
        (step cfg s f).current
          = updateCurrentGestures s.current f
            ++ (s.remaining.filter fun decl => decide (decl.startFrame = f)).map
                (fun decl => (decl.construct s.bones, decl.args)))
    ∧ (∀ (cfg : SequenceConfig) (s : SeqState) (f : ℤ),
        currentDuring s f = (step cfg s f).current) := by
  refine ⟨?_, fun cfg s f => rfl, fun cfg s f => rfl, fun cfg s f => rfl⟩
  intro current f p
  rw [updateCurrentGestures, List.mem_filter]
  have hb : ((!retiresAt p.2 f) = true) = ¬(retiresAt p.2 f = true) := by
    cases retiresAt p.2 f <;> simp
  rw [hb, retiresAt_eq_true_iff]

/-- A concrete current-set entry: a translation gesture declared with
`start_frame = 1` and `end_frame = 3`. -/
noncomputable def cexC7Inst : GestureInst := .translation ⟨1, 3, fun _ => 1, true, zeroVec⟩

/-- Counterexample to claim C7 as stated: a gesture with `end_frame = 3` is
still current at frame 2 but is dropped by `_update_current_gestures`
already at frame 3 (`current_frame == end_frame`), not the frame after, so
it does not contribute at its end frame. -/
theorem claim_C7_counterexample :
    updateCurrentGestures [(cexC7Inst, ⟨1, some 3⟩)] 2 = [(cexC7Inst, ⟨1, some 3⟩)]
    ∧ updateCurrentGestures [(cexC7Inst, ⟨1, some 3⟩)] 3 = [] :=
  ⟨rfl, rfl⟩

/-! ## Order invariance of the per-frame composition (claim C8) -/

/-- Claim C8: the per-frame displacement data is invariant under any
permutation of the active gesture list: each `apply` adds a contribution
independent of the accumulated data (additive composition), the aggregate
over the fresh zero frame is permutation-invariant, and hence so is the
full momentum/clamp pipeline output. -/
theorem claim_C8 (cfg : SequenceConfig) (gs gs2 : List GestureInst) (h : gs.Perm gs2)
    (f : ℤ) (previous : DisplacementData) :
    aggregateDisplacement gs f = aggregateDisplacement gs2 f
    ∧ getDisplacementData cfg gs f previous = getDisplacementData cfg gs2 f previous
    ∧ (∀ (g : GestureInst) (d : DisplacementData),
        g.apply d f = addDisplacement d (g.apply defaultDisplacementData f)) := by
  have hagg : aggregateDisplacement gs f = aggregateDisplacement gs2 f := by
    unfold aggregateDisplacement applyGestures
    refine h.foldl_eq' ?_ _
    intro x _ y _ z
    show y.apply (x.apply z f) f = x.apply (y.apply z f) f
    calc y.apply (x.apply z f) f
        = addDisplacement (x.apply z f) (y.apply defaultDisplacementData f) :=
          GestureInst.apply_eq_add y _ f
      _ = addDisplacement (addDisplacement z (x.apply defaultDisplacementData f))
            (y.apply defaultDisplacementData f) := by
          rw [← GestureInst.apply_eq_add x z f]
      _ = addDisplacement (addDisplacement z (y.apply defaultDisplacementData f))
            (x.apply defaultDisplacementData f) := addDisplacement_right_comm ..
      _ = addDisplacement (y.apply z f) (x.apply defaultDisplacementData f) := by
          rw [← GestureInst.apply_eq_add y z f]
      _ = x.apply (y.apply z f) f := (GestureInst.apply_eq_add x _ f).symm
  refine ⟨hagg, ?_, fun g d => GestureInst.apply_eq_add g d f⟩
  unfold getDisplacementData
  rw [hagg]

/-- Two concrete concurrently active gestures used by witnesses. -/
noncomputable def cexC8A : GestureInst := .translation ⟨1, 5, fun _ => 2, true, zeroVec⟩

noncomputable def cexC8B : GestureInst := .rotation ⟨1, 5, Bone.hand, fun _ => 1, true, zeroVec⟩

/-- Witness for claim C8 at a concrete two-gesture permutation. -/
theorem claim_C8_witness :
    ([cexC8A, cexC8B].Perm [cexC8B, cexC8A])
    ∧ aggregateDisplacement [cexC8A, cexC8B] 1 = aggregateDisplacement [cexC8B, cexC8A] 1
    ∧ getDisplacementData cfgW [cexC8A, cexC8B] 1 defaultDisplacementData
        = getDisplacementData cfgW [cexC8B, cexC8A] 1 defaultDisplacementData :=
  ⟨List.Perm.swap cexC8B cexC8A [],
    (claim_C8 cfgW [cexC8A, cexC8B] [cexC8B, cexC8A] (List.Perm.swap cexC8B cexC8A [])
      1 defaultDisplacementData).1,
    (claim_C8 cfgW [cexC8A, cexC8B] [cexC8B, cexC8A] (List.Perm.swap cexC8B cexC8A [])
      1 defaultDisplacementData).2.1⟩

/-! ## Constructor checks (claim C9) -/

/-- Claim C9, against the code: the frame-window and wave-period/amplitude
checks are indeed raised at construction time exactly when the claimed
conditions are violated, but the constructor performs no axis validation at
all: `RotationSineGesture.init` succeeds for an arbitrary non-`Axis` axis
argument (its acceptance is independent of the axis argument), and the
`Axis.index` lookup that `apply` later performs fails on it. -/
theorem claim_C9 :
    (∀ s e : ℤ, Gesture.init s e = .ok () ↔ (0 ≤ s ∧ 0 ≤ e ∧ s < e))
    ∧ (∀ (s e : ℤ) (ax : AxisArg) (p a : ℝ),
        RotationSineGesture.init s e ax p a = .ok ()
          ↔ (0 < p ∧ 0 ≤ a ∧ 0 ≤ s ∧ 0 ≤ e ∧ s < e))
    ∧ RotationSineGesture.init 1 2 (.other "W") 4 (1 / 10) = .ok ()
    ∧ AxisArg.indexLookup (.other "W") = none := by
  have hG : ∀ s e : ℤ, Gesture.init s e = .ok () ↔ (0 ≤ s ∧ 0 ≤ e ∧ s < e) := by
    intro s e
    unfold Gesture.init
    split_ifs with h1 h2
    · constructor
      · intro h
        exact absurd h (by simp)
      · intro h
        omega
    · constructor
      · intro h
        exact absurd h (by simp)
      · intro h
        omega
    · constructor
      · intro _
        omega
      · intro _
        rfl
  refine ⟨hG, ?_, ?_, rfl⟩
  · intro s e ax p a
    unfold RotationSineGesture.init
    split_ifs with hp ha
    · constructor
      · intro h
        exact absurd h (by simp)
      · rintro ⟨h1, -⟩
        linarith
    · constructor
      · intro h
        exact absurd h (by simp)
      · rintro ⟨-, h2, -⟩
        linarith
    · rw [hG s e]
      push_neg at hp ha
      constructor
      · rintro ⟨hs, he, hlt⟩
        exact ⟨hp, ha, hs, he, hlt⟩
      · rintro ⟨-, -, hs, he, hlt⟩
        exact ⟨hs, he, hlt⟩
  · unfold RotationSineGesture.init Gesture.init
    rw [if_neg (by norm_num), if_neg (by norm_num), if_neg (by omega), if_neg (by omega)]

/-! ## Only the arm's location is ever written (claim C10) -/

lemma apply_location_of_ne_arm (g : GestureInst) (d : DisplacementData) (f : ℤ)
    (b : Bone) (hb : b ≠ Bone.arm) : ((g.apply d f) b).location = (d b).location := by
  cases g with
  | translation g =>
      show ((addVecToLocation d Bone.arm g.translation) b).location = (d b).location
      rw [addVecToLocation_other_bone _ _ _ _ hb]
  | rotation g =>
      exact addVecToRotation_location ..
  | rotationSine g =>
      exact addToRotation_location ..
  | translationSine g =>
      show ((addToLocation d Bone.arm g.axis.index _) b).location = (d b).location
      rw [addToLocation_other_bone _ _ _ _ _ hb]
  | rotationWave g =>
      show ((g.apply d f) b).location = (d b).location
      simp only [RotationWaveGesture.apply, RotationWaveGesture.boneApply]
      rw [addToRotation_location, addToRotation_location, addToRotation_location]

lemma applyGestures_location_of_ne_arm (gs : List GestureInst) :
    ∀ (d : DisplacementData) (f : ℤ) (b : Bone), b ≠ Bone.arm →
      ((applyGestures gs d f) b).location = (d b).location := by
  induction gs with
  | nil => intro d f b _; rfl
  | cons g rest ih =>
      intro d f b hb
      show ((applyGestures rest (g.apply d f) f) b).location = (d b).location
      rw [ih (g.apply d f) f b hb, apply_location_of_ne_arm g d f b hb]

/-- Claim C10: no gesture variant writes a location entry other than the
arm's (the translation variants write exclusively the arm's location entry
and the rotation variants write no location entry at all), so in the
aggregation stage of every frame the forearm's and the hand's location
deltas remain the zero vector. -/
theorem claim_C10 :
    (∀ (g : GestureInst) (d : DisplacementData) (f : ℤ) (b : Bone),
        b ≠ Bone.arm → ((g.apply d f) b).location = (d b).location)
    ∧ (∀ (gs : List GestureInst) (f : ℤ) (b : Bone),
        b ≠ Bone.arm → ((aggregateDisplacement gs f) b).location = zeroVec) :=
  ⟨apply_location_of_ne_arm, fun gs f b hb =>
    applyGestures_location_of_ne_arm gs defaultDisplacementData f b hb⟩

/-- Witness for claim C10 at the forearm. -/
theorem claim_C10_witness :
    (Bone.forearm ≠ Bone.arm)
    ∧ ((cexC8A.apply defaultDisplacementData 1) Bone.forearm).location
        = (defaultDisplacementData Bone.forearm).location
    ∧ ((aggregateDisplacement [cexC8A, cexC8B] 1) Bone.forearm).location = zeroVec :=
  ⟨by decide,
    claim_C10.1 cexC8A defaultDisplacementData 1 Bone.forearm (by decide),
    claim_C10.2 [cexC8A, cexC8B] 1 Bone.forearm (by decide)⟩

end Gestures
